import Mathlib

/-!
Verification of the filter-composition and refresh-scheduling engine of the
`List` component (src/src/components/list/List.jsx) of
openmrs-react-components.

The component's logic is embedded shallowly:
* rows are an opaque type `ρ`, the row collection a `List ρ`;
* a filter is a pure Boolean predicate `ρ → Bool`;
* an optional filter is a record with `label`, `filter`, `enabled`, `key`,
  mirroring the objects held in `this.state.filters`;
* possibly-absent props (`filters`, `optionalFilters`,
  `fetchListActionCreator`, `delayInterval`) are `Option`s;
* the refresh scheduler (`componentDidMount` / `componentWillUnmount` with
  `setInterval` / `clearInterval`) is a state record holding the fetch-call
  count and the armed timer handle, with a function simulating elapsed time.
-/

namespace OpenmrsList

/-- An entry of `this.state.filters`: an optional filter spec after the
constructor has attached `enabled` and `key` to it. -/
structure OptionalFilter (ρ : Type) where
  label : String
  filter : ρ → Bool
  enabled : Bool
  key : String

/-- JS `applyFiltersHelper(list, filters)`: if `filters` is empty return
`list`, otherwise filter `list` by the LAST element of `filters`
(`filters[filters.length - 1]`) and recurse on `filters.slice(0, -1)`. -/
def applyFiltersHelper {ρ : Type} (list : List ρ) (filters : List (ρ → Bool)) : List ρ :=
  if h : filters.length = 0 then
    list
  else
    applyFiltersHelper
      (list.filter (filters.getLast (fun hnil => h (by simp [hnil]))))
      filters.dropLast
termination_by filters.length
decreasing_by
  simp only [List.length_dropLast]
  exact Nat.sub_lt (Nat.pos_of_ne_zero h) Nat.one_pos

/-- JS `applyFilters(list)`: copy `this.props.filters` (or `[]` when the prop
is absent), append the `filter` predicates of the enabled entries of
`this.state.filters`, and run `applyFiltersHelper`. -/
def applyFilters {ρ : Type} (propsFilters : Option (List (ρ → Bool)))
    (stateFilters : List (OptionalFilter ρ)) (list : List ρ) : List ρ :=
  let filters := propsFilters.getD []
  let filters := filters ++ (stateFilters.filter (fun v => v.enabled)).map (fun v => v.filter)
  applyFiltersHelper list filters

/-- The predicates of the currently enabled optional filters, in state order. -/
def enabledPredicates {ρ : Type} (stateFilters : List (OptionalFilter ρ)) : List (ρ → Bool) :=
  (stateFilters.filter (fun v => v.enabled)).map (fun v => v.filter)

/-- A caller-supplied optional filter spec: a `{label, filter}` pair
(the `optionalFilters` prop) before the constructor touches it. -/
structure OptionalFilterSpec (ρ : Type) where
  label : String
  filter : ρ → Bool

/-- The character class of the JS regex `\s` (ECMA-262 WhiteSpace and
LineTerminator code points), used by `label.replace(/\s/g, '')`. -/
def isJsWhitespace (c : Char) : Bool :=
  c.val = 0x09 || c.val = 0x0a || c.val = 0x0b || c.val = 0x0c || c.val = 0x0d ||
  c.val = 0x20 || c.val = 0xa0 || c.val = 0x1680 ||
  (0x2000 ≤ c.val && c.val ≤ 0x200a) ||
  c.val = 0x2028 || c.val = 0x2029 || c.val = 0x202f || c.val = 0x205f ||
  c.val = 0x3000 || c.val = 0xfeff

/-- Unicode simple lowercase mapping, Basic Latin and Latin-1 Supplement
(code points below 0x100; 0xD7 MULTIPLICATION SIGN has no mapping). -/
def lowerLatin1 (v : Nat) : Nat :=
  if 0x41 ≤ v && v ≤ 0x5A then v + 0x20
  else if (0xC0 ≤ v && v ≤ 0xD6) || (0xD8 ≤ v && v ≤ 0xDE) then v + 0x20
  else v

/-- Unicode simple lowercase mapping, Latin Extended-A, Latin Extended-B
and IPA (0x100-0x24F; 0x130 LATIN CAPITAL LETTER I WITH DOT ABOVE is
handled at the string level, where its full mapping is two characters). -/
def lowerLatinExtended (v : Nat) : Nat :=
  if 0x100 ≤ v && v ≤ 0x136 && v % 2 == 0 && v != 0x130 then v + 1
  else if 0x139 ≤ v && v ≤ 0x147 && v % 2 == 1 then v + 1
  else if 0x14A ≤ v && v ≤ 0x176 && v % 2 == 0 then v + 1
  else if v == 0x178 then 0xFF
  else if 0x179 ≤ v && v ≤ 0x17D && v % 2 == 1 then v + 1
  else if v == 0x181 then 0x253
  else if v == 0x182 || v == 0x184 then v + 1
  else if v == 0x186 then 0x254
  else if v == 0x187 then 0x188
  else if v == 0x189 || v == 0x18A then v + 0xCD
  else if v == 0x18B then 0x18C
  else if v == 0x18E then 0x1DD
  else if v == 0x18F then 0x259
  else if v == 0x190 then 0x25B
  else if v == 0x191 then 0x192
  else if v == 0x193 then 0x260
  else if v == 0x194 then 0x263
  else if v == 0x196 then 0x269
  else if v == 0x197 then 0x268
  else if v == 0x198 then 0x199
  else if v == 0x19C then 0x26F
  else if v == 0x19D then 0x272
  else if v == 0x19F then 0x275
  else if v == 0x1A0 || v == 0x1A2 || v == 0x1A4 then v + 1
  else if v == 0x1A6 then 0x280
  else if v == 0x1A7 then 0x1A8
  else if v == 0x1A9 then 0x283
  else if v == 0x1AC then 0x1AD
  else if v == 0x1AE then 0x288
  else if v == 0x1AF then 0x1B0
  else if v == 0x1B1 || v == 0x1B2 then v + 0xD9
  else if v == 0x1B3 || v == 0x1B5 then v + 1
  else if v == 0x1B7 then 0x292
  else if v == 0x1B8 || v == 0x1BC then v + 1
  else if v == 0x1C4 || v == 0x1C5 then 0x1C6
  else if v == 0x1C7 || v == 0x1C8 then 0x1C9
  else if v == 0x1CA || v == 0x1CB then 0x1CC
  else if 0x1CD ≤ v && v ≤ 0x1DB && v % 2 == 1 then v + 1
  else if 0x1DE ≤ v && v ≤ 0x1EE && v % 2 == 0 then v + 1
  else if v == 0x1F1 || v == 0x1F2 then 0x1F3
  else if v == 0x1F4 then 0x1F5
  else if v == 0x1F6 then 0x195
  else if v == 0x1F7 then 0x1BF
  else if 0x1F8 ≤ v && v ≤ 0x21E && v % 2 == 0 then v + 1
  else if v == 0x220 then 0x19E
  else if 0x222 ≤ v && v ≤ 0x232 && v % 2 == 0 then v + 1
  else if v == 0x23A then 0x2C65
  else if v == 0x23B then 0x23C
  else if v == 0x23D then 0x19A
  else if v == 0x23E then 0x2C66
  else if v == 0x241 then 0x242
  else if v == 0x243 then 0x180
  else if v == 0x244 then 0x289
  else if v == 0x245 then 0x28C
  else if 0x246 ≤ v && v ≤ 0x24E && v % 2 == 0 then v + 1
  else v

/-- Unicode simple lowercase mapping, Greek and Coptic (0x370-0x3FF;
0x3A3 GREEK CAPITAL LETTER SIGMA additionally has the context-sensitive
final-sigma full mapping, applied at the string level). -/
def lowerGreek (v : Nat) : Nat :=
  if v == 0x370 || v == 0x372 || v == 0x376 then v + 1
  else if v == 0x37F then 0x3F3
  else if v == 0x386 then 0x3AC
  else if 0x388 ≤ v && v ≤ 0x38A then v + 0x25
  else if v == 0x38C then 0x3CC
  else if v == 0x38E || v == 0x38F then v + 0x3F
  else if (0x391 ≤ v && v ≤ 0x3A1) || (0x3A3 ≤ v && v ≤ 0x3AB) then v + 0x20
  else if v == 0x3CF then 0x3D7
  else if 0x3D8 ≤ v && v ≤ 0x3EE && v % 2 == 0 then v + 1
  else if v == 0x3F4 then 0x3B8
  else if v == 0x3F7 then 0x3F8
  else if v == 0x3F9 then 0x3F2
  else if v == 0x3FA then 0x3FB
  else if 0x3FD ≤ v && v ≤ 0x3FF then v - 0x82
  else v

/-- Unicode simple lowercase mapping, Cyrillic and Armenian (0x400-0x5FF). -/
def lowerCyrillicArmenian (v : Nat) : Nat :=
  if 0x400 ≤ v && v ≤ 0x40F then v + 0x50
  else if 0x410 ≤ v && v ≤ 0x42F then v + 0x20
  else if 0x460 ≤ v && v ≤ 0x480 && v % 2 == 0 then v + 1
  else if 0x48A ≤ v && v ≤ 0x4BE && v % 2 == 0 then v + 1
  else if v == 0x4C0 then 0x4CF
  else if 0x4C1 ≤ v && v ≤ 0x4CD && v % 2 == 1 then v + 1
  else if 0x4D0 ≤ v && v ≤ 0x52E && v % 2 == 0 then v + 1
  else if 0x531 ≤ v && v ≤ 0x556 then v + 0x30
  else v

/-- Unicode simple lowercase mapping, Georgian (Asomtavruli and Mtavruli to
Mkhedruli) and Cherokee (0x600-0x1DFF). -/
def lowerGeorgianCherokee (v : Nat) : Nat :=
  if (0x10A0 ≤ v && v ≤ 0x10C5) || v == 0x10C7 || v == 0x10CD then v + 0x1C60
  else if 0x13A0 ≤ v && v ≤ 0x13EF then v + 0x97D0
  else if 0x13F0 ≤ v && v ≤ 0x13F5 then v + 8
  else if (0x1C90 ≤ v && v ≤ 0x1CBA) || (0x1CBD ≤ v && v ≤ 0x1CBF) then v - 0xBC0
  else v

/-- Unicode simple lowercase mapping, Latin Extended Additional and Greek
Extended (0x1E00-0x1FFF). -/
def lowerLatinAdditionalGreekExtended (v : Nat) : Nat :=
  if 0x1E00 ≤ v && v ≤ 0x1E94 && v % 2 == 0 then v + 1
  else if v == 0x1E9E then 0xDF
  else if 0x1EA0 ≤ v && v ≤ 0x1EFE && v % 2 == 0 then v + 1
  else if (0x1F08 ≤ v && v ≤ 0x1F0F) || (0x1F18 ≤ v && v ≤ 0x1F1D) ||
      (0x1F28 ≤ v && v ≤ 0x1F2F) || (0x1F38 ≤ v && v ≤ 0x1F3F) ||
      (0x1F48 ≤ v && v ≤ 0x1F4D) then v - 8
  else if v == 0x1F59 || v == 0x1F5B || v == 0x1F5D || v == 0x1F5F then v - 8
  else if (0x1F68 ≤ v && v ≤ 0x1F6F) || (0x1F88 ≤ v && v ≤ 0x1F8F) ||
      (0x1F98 ≤ v && v ≤ 0x1F9F) || (0x1FA8 ≤ v && v ≤ 0x1FAF) ||
      (0x1FB8 ≤ v && v ≤ 0x1FB9) || (0x1FD8 ≤ v && v ≤ 0x1FD9) ||
      (0x1FE8 ≤ v && v ≤ 0x1FE9) then v - 8
  else if 0x1FBA ≤ v && v ≤ 0x1FBB then v - 0x4A
  else if v == 0x1FBC then 0x1FB3
  else if 0x1FC8 ≤ v && v ≤ 0x1FCB then v - 0x56
  else if v == 0x1FCC then 0x1FC3
  else if 0x1FDA ≤ v && v ≤ 0x1FDB then v - 0x64
  else if 0x1FEA ≤ v && v ≤ 0x1FEB then v - 0x70
  else if v == 0x1FEC then 0x1FE5
  else if 0x1FF8 ≤ v && v ≤ 0x1FF9 then v - 0x80
  else if 0x1FFA ≤ v && v ≤ 0x1FFB then v - 0x7E
  else if v == 0x1FFC then 0x1FF3
  else v

/-- Unicode simple lowercase mapping, letterlike symbols, Roman numerals,
circled letters, Glagolitic, Latin Extended-C and Coptic (0x2000-0x2FFF). -/
def lowerSymbolsGlagoliticCoptic (v : Nat) : Nat :=
  if v == 0x2126 then 0x3C9
  else if v == 0x212A then 0x6B
  else if v == 0x212B then 0xE5
  else if v == 0x2132 then 0x214E
  else if 0x2160 ≤ v && v ≤ 0x216F then v + 0x10
  else if v == 0x2183 then 0x2184
  else if 0x24B6 ≤ v && v ≤ 0x24CF then v + 0x1A
  else if 0x2C00 ≤ v && v ≤ 0x2C2F then v + 0x30
  else if v == 0x2C60 then 0x2C61
  else if v == 0x2C62 then 0x26B
  else if v == 0x2C63 then 0x1D7D
  else if v == 0x2C64 then 0x27D
  else if 0x2C67 ≤ v && v ≤ 0x2C6B && v % 2 == 1 then v + 1
  else if v == 0x2C6D then 0x251
  else if v == 0x2C6E then 0x271
  else if v == 0x2C6F then 0x250
  else if v == 0x2C70 then 0x252
  else if v == 0x2C72 || v == 0x2C75 then v + 1
  else if v == 0x2C7E || v == 0x2C7F then v - 0x2A3F
  else if 0x2C80 ≤ v && v ≤ 0x2CE2 && v % 2 == 0 then v + 1
  else if v == 0x2CEB || v == 0x2CED || v == 0x2CF2 then v + 1
  else v

/-- Unicode simple lowercase mapping, Cyrillic Extended-B, Latin
Extended-D and fullwidth forms (0x3000-0xFFFF). -/
def lowerCyrillicExtLatinExtD (v : Nat) : Nat :=
  if 0xA640 ≤ v && v ≤ 0xA66C && v % 2 == 0 then v + 1
  else if 0xA680 ≤ v && v ≤ 0xA69A && v % 2 == 0 then v + 1
  else if 0xA722 ≤ v && v ≤ 0xA72E && v % 2 == 0 then v + 1
  else if 0xA732 ≤ v && v ≤ 0xA76E && v % 2 == 0 then v + 1
  else if v == 0xA779 || v == 0xA77B then v + 1
  else if v == 0xA77D then 0x1D79
  else if 0xA77E ≤ v && v ≤ 0xA786 && v % 2 == 0 then v + 1
  else if v == 0xA78B then 0xA78C
  else if v == 0xA78D then 0x265
  else if v == 0xA790 || v == 0xA792 then v + 1
  else if 0xA796 ≤ v && v ≤ 0xA7A8 && v % 2 == 0 then v + 1
  else if v == 0xA7AA then 0x266
  else if v == 0xA7AB then 0x25C
  else if v == 0xA7AC then 0x261
  else if v == 0xA7AD then 0x26C
  else if v == 0xA7AE then 0x26A
  else if v == 0xA7B0 then 0x29E
  else if v == 0xA7B1 then 0x287
  else if v == 0xA7B2 then 0x29D
  else if v == 0xA7B3 then 0xAB53
  else if 0xA7B4 ≤ v && v ≤ 0xA7C2 && v % 2 == 0 then v + 1
  else if v == 0xA7C4 then 0xA794
  else if v == 0xA7C5 then 0x282
  else if v == 0xA7C6 then 0x1D8E
  else if v == 0xA7C7 || v == 0xA7C9 then v + 1
  else if v == 0xA7D0 || v == 0xA7D6 || v == 0xA7D8 then v + 1
  else if v == 0xA7F5 then 0xA7F6
  else if 0xFF21 ≤ v && v ≤ 0xFF3A then v + 0x20
  else v

/-- Unicode simple lowercase mapping, supplementary planes: Deseret,
Osage, Vithkuqi, Old Hungarian, Warang Citi, Medefaidrin and Adlam. -/
def lowerSupplementary (v : Nat) : Nat :=
  if 0x10400 ≤ v && v ≤ 0x10427 then v + 0x28
  else if 0x104B0 ≤ v && v ≤ 0x104D3 then v + 0x28
  else if (0x10570 ≤ v && v ≤ 0x1057A) || (0x1057C ≤ v && v ≤ 0x1058A) ||
      (0x1058C ≤ v && v ≤ 0x10592) || (0x10594 ≤ v && v ≤ 0x10595) then v + 0x27
  else if 0x10C80 ≤ v && v ≤ 0x10CB2 then v + 0x40
  else if 0x118A0 ≤ v && v ≤ 0x118BF then v + 0x20
  else if 0x16E40 ≤ v && v ≤ 0x16E5F then v + 0x20
  else if 0x1E900 ≤ v && v ≤ 0x1E921 then v + 0x22
  else v

/-- The Unicode simple lowercase mapping (UnicodeData.txt field 13) on a
code point, dispatched by block. -/
def lowerCodePoint (v : Nat) : Nat :=
  if v < 0x100 then lowerLatin1 v
  else if v < 0x250 then lowerLatinExtended v
  else if v < 0x400 then lowerGreek v
  else if v < 0x600 then lowerCyrillicArmenian v
  else if v < 0x1E00 then lowerGeorgianCherokee v
  else if v < 0x2000 then lowerLatinAdditionalGreekExtended v
  else if v < 0x3000 then lowerSymbolsGlagoliticCoptic v
  else if v < 0x10000 then lowerCyrillicExtLatinExtD v
  else lowerSupplementary v

/-- The Unicode simple lowercase mapping on a character. -/
def toLowercaseSimple (c : Char) : Char :=
  Char.ofNat (lowerCodePoint c.toNat)

/-- The Unicode Case_Ignorable property (characters skipped by the
Final_Sigma context test): combining marks, modifier letters and symbols,
format controls, and the MidLetter/MidNumLet/Single_Quote word-break
punctuation. -/
def isCaseIgnorableChar (c : Char) : Bool :=
  let v := c.toNat
  v == 0x27 || v == 0x2E || v == 0x3A || v == 0x5E || v == 0x60 ||
  v == 0xA8 || v == 0xAD || v == 0xAF || v == 0xB4 || v == 0xB7 || v == 0xB8 ||
  (0x2B0 ≤ v && v ≤ 0x36F) || v == 0x374 || v == 0x375 || v == 0x37A ||
  v == 0x384 || v == 0x385 || v == 0x387 ||
  (0x483 ≤ v && v ≤ 0x489) || v == 0x559 ||
  (0x591 ≤ v && v ≤ 0x5BD) || v == 0x5BF || v == 0x5C1 || v == 0x5C2 ||
  v == 0x5C4 || v == 0x5C5 || v == 0x5C7 || v == 0x5F4 ||
  (0x600 ≤ v && v ≤ 0x605) || (0x610 ≤ v && v ≤ 0x61A) || v == 0x61C ||
  (0x64B ≤ v && v ≤ 0x65F) || v == 0x670 || (0x6D6 ≤ v && v ≤ 0x6DD) ||
  (0x6DF ≤ v && v ≤ 0x6E8) || (0x6EA ≤ v && v ≤ 0x6ED) ||
  (0x816 ≤ v && v ≤ 0x82D) || (0x859 ≤ v && v ≤ 0x85B) ||
  (0x8D3 ≤ v && v ≤ 0x902) ||
  (0x1AB0 ≤ v && v ≤ 0x1AFF) || (0x1C78 ≤ v && v ≤ 0x1C7D) ||
  (0x1DC0 ≤ v && v ≤ 0x1DFF) ||
  (0x200B ≤ v && v ≤ 0x200F) || v == 0x2018 || v == 0x2019 || v == 0x2024 ||
  v == 0x2027 || (0x202A ≤ v && v ≤ 0x202E) || (0x2060 ≤ v && v ≤ 0x2064) ||
  v == 0x2071 || v == 0x207F || (0x2090 ≤ v && v ≤ 0x209C) ||
  (0x20D0 ≤ v && v ≤ 0x20F0) || (0x2C7B ≤ v && v ≤ 0x2C7D) ||
  v == 0x2D6F || v == 0x2E2F ||
  v == 0xA69C || v == 0xA69D || (0xA717 ≤ v && v ≤ 0xA71F) || v == 0xA770 ||
  (0xA788 ≤ v && v ≤ 0xA78A) || v == 0xFB1E ||
  (0xFE00 ≤ v && v ≤ 0xFE0F) || v == 0xFE13 || (0xFE20 ≤ v && v ≤ 0xFE2F) ||
  v == 0xFE52 || v == 0xFE55 || v == 0xFEFF ||
  v == 0xFF07 || v == 0xFF0E || v == 0xFF1A || v == 0xFF3E || v == 0xFF40 ||
  v == 0xFFE3

/-- Lowercase (and otherwise cased-but-unmapped) letters, for the Cased
property used by the Final_Sigma context test. -/
def isLowercaseLetter (v : Nat) : Bool :=
  (0x61 ≤ v && v ≤ 0x7A) || v == 0xAA || v == 0xB5 || v == 0xBA ||
  (0xDF ≤ v && v ≤ 0xF6) || (0xF8 ≤ v && v ≤ 0x2AF) ||
  (0x371 ≤ v && v ≤ 0x377) || (0x37B ≤ v && v ≤ 0x37D) || v == 0x390 ||
  (0x3AC ≤ v && v ≤ 0x3CE) || (0x3D0 ≤ v && v ≤ 0x3F3) || v == 0x3F5 ||
  v == 0x3F8 || v == 0x3FB || v == 0x3FC ||
  (0x430 ≤ v && v ≤ 0x45F) || (0x461 ≤ v && v ≤ 0x481) ||
  (0x48B ≤ v && v ≤ 0x52F) || (0x560 ≤ v && v ≤ 0x588) ||
  (0x10D0 ≤ v && v ≤ 0x10FA) || (0x10FD ≤ v && v ≤ 0x10FF) ||
  (0x13F8 ≤ v && v ≤ 0x13FD) || (0x1C80 ≤ v && v ≤ 0x1C88) ||
  (0x1D00 ≤ v && v ≤ 0x1D2B) || (0x1D6B ≤ v && v ≤ 0x1D77) ||
  (0x1D79 ≤ v && v ≤ 0x1D9A) || (0x1E00 ≤ v && v ≤ 0x1FFF) ||
  v == 0x210A || v == 0x210E || v == 0x210F || v == 0x2113 || v == 0x212F ||
  v == 0x2134 || v == 0x2139 || v == 0x213C || v == 0x213D ||
  (0x2146 ≤ v && v ≤ 0x2149) || v == 0x214E ||
  (0x2170 ≤ v && v ≤ 0x217F) || v == 0x2184 || (0x24D0 ≤ v && v ≤ 0x24E9) ||
  (0x2C30 ≤ v && v ≤ 0x2C5F) || (0x2C61 ≤ v && v ≤ 0x2CF3) ||
  (0x2D00 ≤ v && v ≤ 0x2D2D) ||
  (0xA641 ≤ v && v ≤ 0xA69B) || (0xA723 ≤ v && v ≤ 0xA7FF) ||
  (0xAB30 ≤ v && v ≤ 0xAB68) || (0xAB70 ≤ v && v ≤ 0xABBF) ||
  (0xFB00 ≤ v && v ≤ 0xFB17) || (0xFF41 ≤ v && v ≤ 0xFF5A) ||
  (0x10428 ≤ v && v ≤ 0x1044F) || (0x104D8 ≤ v && v ≤ 0x104FB) ||
  (0x10597 ≤ v && v ≤ 0x105BB) || (0x10CC0 ≤ v && v ≤ 0x10CF2) ||
  (0x118C0 ≤ v && v ≤ 0x118DF) || (0x16E60 ≤ v && v ≤ 0x16E7F) ||
  (0x1D400 ≤ v && v ≤ 0x1D7CB) || (0x1E922 ≤ v && v ≤ 0x1E943)

/-- The Unicode Cased property: changes under the lowercase mapping, or is
itself a lowercase (or otherwise cased) letter. -/
def isCasedChar (c : Char) : Bool :=
  lowerCodePoint c.toNat != c.toNat || isLowercaseLetter c.toNat

/-- Whether the first non-Case_Ignorable character of the list is cased
(the look-ahead half of the Final_Sigma context test). -/
def followedByCased : List Char → Bool
  | [] => false
  | c :: rest => if isCaseIgnorableChar c then followedByCased rest else isCasedChar c

/-- The Unicode Default Case Conversion toLowercase on a character list.
`prevCased` records whether a cased character precedes (skipping
Case_Ignorable ones). The two locale-independent special cases: 0x3A3
GREEK CAPITAL SIGMA lowers to final sigma 0x3C2 in Final_Sigma context and
to 0x3C3 otherwise; 0x130 LATIN CAPITAL I WITH DOT ABOVE lowers to the two
characters 0x69 0x307. Every other character takes its simple mapping. -/
def toLowercaseCore (prevCased : Bool) : List Char → List Char
  | [] => []
  | c :: rest =>
    let nextPrev := if isCaseIgnorableChar c then prevCased else isCasedChar c
    if c.toNat == 0x3A3 then
      (if prevCased && !(followedByCased rest) then Char.ofNat 0x3C2 else Char.ofNat 0x3C3)
        :: toLowercaseCore nextPrev rest
    else if c.toNat == 0x130 then
      Char.ofNat 0x69 :: Char.ofNat 0x307 :: toLowercaseCore nextPrev rest
    else
      toLowercaseSimple c :: toLowercaseCore nextPrev rest

/-- JS `String.prototype.toLowerCase` (ECMA-262): the Unicode Default Case
Conversion toLowercase of the string's code points. -/
def jsToLowerCase (s : String) : String :=
  String.mk (toLowercaseCore false s.toList)

/-- JS `v.label.toLowerCase().replace(/\s/g, '')`: lower-case the label
and delete every whitespace character. -/
def normalizeKey (label : String) : String :=
  String.mk ((jsToLowerCase label).toList.filter (fun c => !(isJsWhitespace c)))

/-- Value-level reading of the constructor: `this.state.filters` starts as
`[]` and, when the `optionalFilters` prop is present, becomes one entry per
spec with `enabled = false` and `key = normalizeKey label`. -/
def initFilters {ρ : Type} (optionalFilters : Option (List (OptionalFilterSpec ρ))) :
    List (OptionalFilter ρ) :=
  match optionalFilters with
  | none => []
  | some specs => specs.map (fun v =>
      { label := v.label, filter := v.filter, enabled := false, key := normalizeKey v.label })

/-- JS `handleFilterToggle(e, key)`: map over `state.filters`, negating
`enabled` on every entry whose `key` equals the given key. -/
def handleFilterToggle {ρ : Type} (key : String) (stateFilters : List (OptionalFilter ρ)) :
    List (OptionalFilter ρ) :=
  stateFilters.map (fun filter =>
    if filter.key = key then { filter with enabled := !filter.enabled } else filter)

/-- A JS prop value for `delayInterval`: absent (`undefined`), `null`, or a
number. -/
inductive JsValue where
  | undef : JsValue
  | null : JsValue
  | num : Int → JsValue
  deriving DecidableEq

/-- React substitutes `List.defaultProps.delayInterval = 10000` for an
`undefined` `delayInterval` prop before the component sees it. -/
def resolveDelayInterval (given : JsValue) : JsValue :=
  match given with
  | .undef => .num 10000
  | v => v

/-- The guard `this.props.delayInterval !== undefined && this.props.delayInterval > 0`
deciding whether `setInterval` is armed, and with what period.
JS `null > 0` is false (`null` coerces to `0`). -/
def delayIntervalArms (v : JsValue) : Option Int :=
  match v with
  | .undef => none
  | .null => none
  | .num d => if d > 0 then some d else none

/-- State of the refresh scheduler: how many times the fetch action creator
has been invoked, the armed `setInterval` handle (period, or `none`), and how
many on-mount extra actions have been invoked. -/
structure SchedulerState where
  fetchCount : Nat
  armedInterval : Option Int
  otherCalls : Nat
  deriving DecidableEq

/-- JS `componentDidMount`: when `fetchListActionCreator` is defined, call it
once and arm `setInterval` per the `delayInterval` guard; when
`onMountOtherActionCreators` is defined, invoke each of its actions once.
`otherActions` is the number of supplied on-mount action creators. -/
def componentDidMount (hasFetch : Bool) (delayInterval : JsValue)
    (otherActions : Option Nat) : SchedulerState :=
  let s0 : SchedulerState := { fetchCount := 0, armedInterval := none, otherCalls := 0 }
  let s1 : SchedulerState :=
    if hasFetch then
      { s0 with fetchCount := 1, armedInterval := delayIntervalArms delayInterval }
    else s0
  match otherActions with
  | some n => { s1 with otherCalls := n }
  | none => s1

/-- Mounting the component: React applies `List.defaultProps` to the given
`delayInterval` prop, then `componentDidMount` runs. -/
def mountList (hasFetch : Bool) (givenDelayInterval : JsValue)
    (otherActions : Option Nat) : SchedulerState :=
  componentDidMount hasFetch (resolveDelayInterval givenDelayInterval) otherActions

/-- Simulated passage of `ms` milliseconds: an armed `setInterval` with
period `d` fires, and invokes the fetch action creator, every `d` ms. -/
def elapse (s : SchedulerState) (ms : Nat) : SchedulerState :=
  match s.armedInterval with
  | none => s
  | some d => { s with fetchCount := s.fetchCount + ms / d.toNat }

/-- JS `componentWillUnmount`: `clearInterval(this.interval)`; disarms any
timer handle, and is a no-op when none was armed (`clearInterval(undefined)`
throws nothing). -/
def componentWillUnmount (s : SchedulerState) : SchedulerState :=
  { s with armedInterval := none }

/-- A caller-supplied optional-filter spec object as a mutable JS object:
`label` and `filter` are set by the caller; `enabled` and `key` are absent
(`none`) until the constructor assigns them. -/
structure SpecObj (ρ : Type) where
  label : String
  filter : ρ → Bool
  enabled : Option Bool
  key : Option String

/-- The body of the constructor's `.map((v) => { v.enabled = false;
v.key = v.label.toLowerCase().replace(...); return v; })` on one object. -/
def mutateSpec {ρ : Type} (v : SpecObj ρ) : SpecObj ρ :=
  { v with enabled := some false, key := some (normalizeKey v.label) }

/-- Heap model of the constructor: the `optionalFilters` prop is a list of
references into a heap of caller-owned objects; each referenced object is
mutated in place and the very same references become `this.state.filters`. -/
def constructorHeap {ρ : Type} (heap : Nat → SpecObj ρ) (refs : List Nat) :
    (Nat → SpecObj ρ) × List Nat :=
  (refs.foldl (fun h r => Function.update h r (mutateSpec (h r))) heap, refs)

/-- JS `Array.prototype.filter`: returns a freshly allocated result and
leaves the receiver array as it was (first component: the receiver after the
call; second: the new array). -/
def jsFilter {ρ : Type} (arr : List ρ) (p : ρ → Bool) : List ρ × List ρ :=
  (arr, arr.filter p)

/-- `applyFiltersHelper` instrumented to also return the input row collection
as it stands after the call (first component), mirroring that
`Array.prototype.filter` and `Array.prototype.slice` allocate fresh arrays. -/
def applyFiltersHelperTrace {ρ : Type} (list : List ρ) (filters : List (ρ → Bool)) :
    List ρ × List ρ :=
  if h : filters.length = 0 then
    (list, list)
  else
    let step := jsFilter list (filters.getLast (fun hnil => h (by simp [hnil])))
    (step.1, (applyFiltersHelperTrace step.2 filters.dropLast).2)
termination_by filters.length
decreasing_by
  simp only [List.length_dropLast]
  exact Nat.sub_lt (Nat.pos_of_ne_zero h) Nat.one_pos

/-- `applyFilters` instrumented likewise: first component is the input row
collection after the call, second the returned (filtered) collection. -/
def applyFiltersTrace {ρ : Type} (propsFilters : Option (List (ρ → Bool)))
    (stateFilters : List (OptionalFilter ρ)) (list : List ρ) : List ρ × List ρ :=
  let filters := propsFilters.getD []
  let filters := filters ++ (stateFilters.filter (fun v => v.enabled)).map (fun v => v.filter)
  applyFiltersHelperTrace list filters

theorem applyFiltersHelper_eq_filter_all {ρ : Type} (list : List ρ)
    (filters : List (ρ → Bool)) :
    applyFiltersHelper list filters = list.filter (fun r => filters.all (fun f => f r)) := by
  induction filters using List.reverseRecOn generalizing list with
  | nil => simp [applyFiltersHelper]
  | append_singleton fs f ih =>
      rw [applyFiltersHelper]
      have hne : ¬((fs ++ [f]).length = 0) := by simp
      rw [dif_neg hne, List.dropLast_concat, ih]
      simp only [List.getLast_concat, List.filter_filter, List.all_append,
        List.all_cons, List.all_nil, Bool.and_true]

theorem applyFilters_eq_filter_all {ρ : Type} (propsFilters : Option (List (ρ → Bool)))
    (stateFilters : List (OptionalFilter ρ)) (list : List ρ) :
    applyFilters propsFilters stateFilters list =
      list.filter (fun r =>
        (propsFilters.getD []).all (fun f => f r) &&
        (enabledPredicates stateFilters).all (fun f => f r)) := by
  unfold applyFilters enabledPredicates
  rw [applyFiltersHelper_eq_filter_all]
  congr 1
  funext r
  exact List.all_append

theorem all_of_perm {ρ : Type} {fs fs' : List (ρ → Bool)} (h : fs.Perm fs') (r : ρ) :
    fs.all (fun f => f r) = fs'.all (fun f => f r) := by
  rw [Bool.eq_iff_iff, List.all_eq_true, List.all_eq_true]
  constructor
  · intro hx f hf
    exact hx f (h.mem_iff.mpr hf)
  · intro hx f hf
    exact hx f (h.mem_iff.mp hf)

theorem foldl_filter_eq_filter_all {ρ : Type} (list : List ρ) (filters : List (ρ → Bool)) :
    filters.foldl (fun acc f => acc.filter f) list =
      list.filter (fun r => filters.all (fun f => f r)) := by
  induction filters generalizing list with
  | nil => simp
  | cons f fs ih =>
      rw [List.foldl_cons, ih, List.filter_filter]
      apply List.filter_congr
      intro r _
      simp only [List.all_cons]
      exact Bool.and_comm _ _

theorem applyFiltersHelperTrace_fst {ρ : Type} (list : List ρ) (filters : List (ρ → Bool)) :
    (applyFiltersHelperTrace list filters).1 = list := by
  rw [applyFiltersHelperTrace]
  by_cases h : filters.length = 0
  · rw [dif_pos h]
  · rw [dif_neg h]
    rfl

theorem applyFiltersHelperTrace_snd {ρ : Type} (list : List ρ) (filters : List (ρ → Bool)) :
    (applyFiltersHelperTrace list filters).2 = applyFiltersHelper list filters := by
  induction filters using List.reverseRecOn generalizing list with
  | nil =>
      rw [applyFiltersHelperTrace, applyFiltersHelper]
      simp
  | append_singleton fs f ih =>
      rw [applyFiltersHelperTrace, applyFiltersHelper]
      have hne : ¬((fs ++ [f]).length = 0) := by simp
      rw [dif_neg hne, dif_neg hne]
      simp only [jsFilter, List.dropLast_concat]
      exact ih _

theorem constructorFoldl_apply {ρ : Type} (refs : List Nat) (heap : Nat → SpecObj ρ)
    (r : Nat) :
    refs.foldl (fun h q => Function.update h q (mutateSpec (h q))) heap r =
      if r ∈ refs then mutateSpec (heap r) else heap r := by
  induction refs generalizing heap with
  | nil => simp
  | cons a rest ih =>
      rw [List.foldl_cons, ih]
      simp only [List.mem_cons]
      by_cases hra : r = a
      · subst hra
        rw [if_pos (Or.inl rfl), Function.update_same]
        by_cases hrr : r ∈ rest
        · rw [if_pos hrr]
          rfl
        · rw [if_neg hrr]
      · rw [Function.update_noteq hra]
        by_cases hrr : r ∈ rest
        · rw [if_pos hrr, if_pos (Or.inr hrr)]
        · rw [if_neg hrr, if_neg (by
            intro hor
            rcases hor with hor | hor
            · exact hra hor
            · exact hrr hor)]

theorem constructorHeap_fst_apply {ρ : Type} (heap : Nat → SpecObj ρ) (refs : List Nat)
    (r : Nat) :
    (constructorHeap heap refs).1 r =
      if r ∈ refs then mutateSpec (heap r) else heap r :=
  constructorFoldl_apply refs heap r

theorem applyFilters_no_filters {ρ : Type} (rows : List ρ) :
    applyFilters none ([] : List (OptionalFilter ρ)) rows = rows := by
  rw [applyFilters_eq_filter_all]
  simp [enabledPredicates]

/-- Sample objects used to instantiate the universally quantified theorems. -/
def samplePredEven : Nat → Bool := fun n => n % 2 == 0

def samplePredSmall : Nat → Bool := fun n => decide (n ≤ 4)

def sampleOptFilter : OptionalFilter Nat :=
  { label := "High Risk", filter := fun n => decide (3 ≤ n), enabled := false,
    key := "highrisk" }

def sampleSpec : OptionalFilterSpec Nat :=
  { label := "Blood Pressure", filter := samplePredEven }

def sampleSpecObj : SpecObj Nat :=
  { label := "Blood Pressure", filter := samplePredEven, enabled := none, key := none }

def sampleHeap : Nat → SpecObj Nat := fun _ => sampleSpecObj

/-- C1: `applyFilters` returns exactly the subset of `rows` on which every
mandatory filter and every currently-enabled optional filter returns true
(stated both as a filter equation and as a membership characterisation);
with zero filters it returns all rows, and on zero rows it returns the
empty collection. -/
theorem C1_applyFilters_is_conjunctive_subset {ρ : Type} (rows : List ρ)
    (mandatory : Option (List (ρ → Bool))) (stateFilters : List (OptionalFilter ρ)) :
    applyFilters mandatory stateFilters rows =
      rows.filter (fun r =>
        (mandatory.getD [] ++ enabledPredicates stateFilters).all (fun f => f r)) ∧
    (∀ r : ρ, r ∈ applyFilters mandatory stateFilters rows ↔
      r ∈ rows ∧
        ∀ f ∈ mandatory.getD [] ++ enabledPredicates stateFilters, f r = true) ∧
    applyFilters none ([] : List (OptionalFilter ρ)) rows = rows ∧
    applyFilters mandatory stateFilters ([] : List ρ) = [] := by
  have hall : applyFilters mandatory stateFilters rows =
      rows.filter (fun r =>
        (mandatory.getD [] ++ enabledPredicates stateFilters).all (fun f => f r)) := by
    rw [applyFilters_eq_filter_all]
    apply List.filter_congr
    intro r _
    rw [List.all_append]
  refine ⟨hall, ?_, applyFilters_no_filters rows, ?_⟩
  · intro r
    rw [hall, List.mem_filter, List.all_eq_true]
  · rw [applyFilters_eq_filter_all]
    simp

/-- C2 counterexample: when the `delayInterval` prop is absent
(`undefined`), React substitutes `List.defaultProps.delayInterval = 10000`,
so mounting with a fetch function DOES arm a 10000 ms timer, and after
50000 simulated ms the fetch call count is 6, not 1. -/
theorem C2_counterexample_absent_interval_arms_timer :
    (mountList true JsValue.undef none).armedInterval ≠ none ∧
    (elapse (mountList true JsValue.undef none) 50000).fetchCount = 6 := by
  decide

/-- C2 (amended): if the `delayInterval` prop is supplied as `null` or as a
number `d ≤ 0`, mounting with a fetch function invokes it exactly once,
arms no timer, and the fetch call count is still 1 after any simulated
elapsed time; an ABSENT interval instead defaults to 10000 ms and arms a
timer. -/
theorem C2_nonpositive_interval_single_fetch (given : JsValue) (other : Option Nat)
    (ms : Nat)
    (h : given = JsValue.null ∨ ∃ d : Int, given = JsValue.num d ∧ d ≤ 0) :
    (mountList true given other).fetchCount = 1 ∧
    (mountList true given other).armedInterval = none ∧
    (elapse (mountList true given other) ms).fetchCount = 1 := by
  have harm : delayIntervalArms (resolveDelayInterval given) = none := by
    rcases h with h | ⟨d, hd, hle⟩
    · subst h
      rfl
    · subst hd
      simp [resolveDelayInterval, delayIntervalArms]
      omega
  have hmount : mountList true given other =
      { fetchCount := 1, armedInterval := none,
        otherCalls := (componentDidMount true (resolveDelayInterval given) other).otherCalls } := by
    unfold mountList componentDidMount
    cases other <;> simp [harm]
  rw [hmount]
  exact ⟨rfl, rfl, rfl⟩

/-- C2 witness: interval supplied as 0, no extra actions, 50000 ms elapsed. -/
theorem C2_nonpositive_interval_single_fetch_witness :
    (JsValue.num 0 = JsValue.null ∨
      ∃ d : Int, JsValue.num 0 = JsValue.num d ∧ d ≤ 0) ∧
    ((mountList true (JsValue.num 0) none).fetchCount = 1 ∧
      (mountList true (JsValue.num 0) none).armedInterval = none ∧
      (elapse (mountList true (JsValue.num 0) none) 50000).fetchCount = 1) :=
  ⟨Or.inr ⟨0, rfl, by decide⟩,
    C2_nonpositive_interval_single_fetch (JsValue.num 0) none 50000
      (Or.inr ⟨0, rfl, by decide⟩)⟩

/-- C3: the surviving rows do not depend on the iteration order of the
filter sequence (any permutation gives the same result), and the code's
last-to-first recursive application equals a left-to-right fold. -/
theorem C3_filter_order_independence {ρ : Type} (rows : List ρ)
    (fs gs : List (ρ → Bool)) (h : fs.Perm gs) :
    applyFiltersHelper rows fs = applyFiltersHelper rows gs ∧
    applyFiltersHelper rows fs = fs.foldl (fun acc f => acc.filter f) rows := by
  constructor
  · rw [applyFiltersHelper_eq_filter_all, applyFiltersHelper_eq_filter_all]
    apply List.filter_congr
    intro r _
    exact all_of_perm h r
  · rw [applyFiltersHelper_eq_filter_all, foldl_filter_eq_filter_all]

/-- C3 witness: two concrete predicates over six rows, swapped. -/
theorem C3_filter_order_independence_witness :
    ([samplePredEven, samplePredSmall].Perm [samplePredSmall, samplePredEven]) ∧
    (applyFiltersHelper [1, 2, 3, 4, 5, 6] [samplePredEven, samplePredSmall] =
        applyFiltersHelper [1, 2, 3, 4, 5, 6] [samplePredSmall, samplePredEven] ∧
      applyFiltersHelper [1, 2, 3, 4, 5, 6] [samplePredEven, samplePredSmall] =
        [samplePredEven, samplePredSmall].foldl (fun acc f => acc.filter f)
          [1, 2, 3, 4, 5, 6]) :=
  ⟨List.Perm.swap samplePredSmall samplePredEven [],
    C3_filter_order_independence [1, 2, 3, 4, 5, 6]
      [samplePredEven, samplePredSmall] [samplePredSmall, samplePredEven]
      (List.Perm.swap samplePredSmall samplePredEven [])⟩

/-- C4: unmounting cancels any armed timer (no further fetch invocations
for any simulated elapsed time), and is a no-op on a state with no armed
timer, in particular on the initial never-mounted state. -/
theorem C4_unmount_cancels_timer (s : SchedulerState) (ms fc oc : Nat) :
    (componentWillUnmount s).armedInterval = none ∧
    elapse (componentWillUnmount s) ms = componentWillUnmount s ∧
    (elapse (componentWillUnmount s) ms).fetchCount = s.fetchCount ∧
    componentWillUnmount ⟨fc, none, oc⟩ = ⟨fc, none, oc⟩ :=
  ⟨rfl, rfl, rfl, rfl⟩

/-- C5: toggling the same key twice restores the optional-filter state
exactly (toggling is an involution). -/
theorem C5_toggle_involution {ρ : Type} (key : String)
    (stateFilters : List (OptionalFilter ρ)) :
    handleFilterToggle key (handleFilterToggle key stateFilters) = stateFilters := by
  unfold handleFilterToggle
  rw [List.map_map]
  apply List.map_id''
  intro f
  obtain ⟨lab, fil, en, k⟩ := f
  by_cases hk : k = key
  · simp [hk, Bool.not_not]
  · simp [hk]

/-- C6: toggling a key flips `enabled` on exactly the entries whose key
matches, leaves every field of every other entry unchanged (stated
elementwise: same length, and each position is either the flipped entry or
the untouched original), and is a no-op on the whole state when no key
matches. -/
theorem C6_toggle_frame {ρ : Type} (key : String)
    (stateFilters : List (OptionalFilter ρ)) (i : Nat)
    (h : i < stateFilters.length) :
    (handleFilterToggle key stateFilters).length = stateFilters.length ∧
    (handleFilterToggle key stateFilters).get
        ⟨i, by simpa [handleFilterToggle] using h⟩ =
      (if (stateFilters.get ⟨i, h⟩).key = key then
        { stateFilters.get ⟨i, h⟩ with
            enabled := !(stateFilters.get ⟨i, h⟩).enabled }
      else stateFilters.get ⟨i, h⟩) ∧
    ((∀ f ∈ stateFilters, ¬(f.key = key)) →
      handleFilterToggle key stateFilters = stateFilters) := by
  refine ⟨by simp [handleFilterToggle], ?_, ?_⟩
  · simp only [handleFilterToggle, List.get_eq_getElem, List.getElem_map]
  · intro hnone
    unfold handleFilterToggle
    conv_rhs => rw [← List.map_id stateFilters]
    apply List.map_congr_left
    intro f hf
    rw [if_neg (hnone f hf)]
    rfl

/-- C6 witness: a single optional filter with key `"highrisk"`, toggled by
a non-matching key at index 0. -/
theorem C6_toggle_frame_witness :
    0 < ([sampleOptFilter] : List (OptionalFilter Nat)).length ∧
    ((handleFilterToggle "nomatch" [sampleOptFilter]).length =
        ([sampleOptFilter] : List (OptionalFilter Nat)).length ∧
      (handleFilterToggle "nomatch" [sampleOptFilter]).get
          ⟨0, by simp [handleFilterToggle]⟩ =
        (if (([sampleOptFilter] : List (OptionalFilter Nat)).get
              ⟨0, by simp⟩).key = "nomatch" then
          { ([sampleOptFilter] : List (OptionalFilter Nat)).get ⟨0, by simp⟩ with
              enabled :=
                !(([sampleOptFilter] : List (OptionalFilter Nat)).get
                    ⟨0, by simp⟩).enabled }
        else ([sampleOptFilter] : List (OptionalFilter Nat)).get ⟨0, by simp⟩) ∧
      ((∀ f ∈ ([sampleOptFilter] : List (OptionalFilter Nat)),
          ¬(f.key = "nomatch")) →
        handleFilterToggle "nomatch" [sampleOptFilter] = [sampleOptFilter])) :=
  ⟨by simp, C6_toggle_frame "nomatch" [sampleOptFilter] 0 (by simp)⟩

/-- C7: the constructor produces one optional-filter entry per supplied
spec, each with `enabled = false` and `key` the lower-cased,
whitespace-stripped label (`normalizeKey "Blood Pressure" =
"bloodpressure"`), and the empty state when no specs are given. -/
theorem C7_init_filters {ρ : Type} (specs : List (OptionalFilterSpec ρ)) (i : Nat)
    (h : i < specs.length) :
    (initFilters (some specs)).length = specs.length ∧
    (initFilters (some specs)).get ⟨i, by simpa [initFilters] using h⟩ =
      { label := (specs.get ⟨i, h⟩).label,
        filter := (specs.get ⟨i, h⟩).filter,
        enabled := false,
        key := normalizeKey (specs.get ⟨i, h⟩).label } ∧
    normalizeKey "Blood Pressure" = "bloodpressure" ∧
    initFilters (none : Option (List (OptionalFilterSpec ρ))) = [] := by
  refine ⟨by simp [initFilters], ?_, by decide, rfl⟩
  simp only [initFilters, List.get_eq_getElem, List.getElem_map]

/-- C7 witness: a single `{label := "Blood Pressure", ...}` spec at index 0. -/
theorem C7_init_filters_witness :
    0 < ([sampleSpec] : List (OptionalFilterSpec Nat)).length ∧
    ((initFilters (some [sampleSpec])).length =
        ([sampleSpec] : List (OptionalFilterSpec Nat)).length ∧
      (initFilters (some [sampleSpec])).get ⟨0, by simp [initFilters]⟩ =
        { label := (([sampleSpec] : List (OptionalFilterSpec Nat)).get
              ⟨0, by simp⟩).label,
          filter := (([sampleSpec] : List (OptionalFilterSpec Nat)).get
              ⟨0, by simp⟩).filter,
          enabled := false,
          key := normalizeKey ((([sampleSpec] :
              List (OptionalFilterSpec Nat))).get ⟨0, by simp⟩).label } ∧
      normalizeKey "Blood Pressure" = "bloodpressure" ∧
      initFilters (none : Option (List (OptionalFilterSpec Nat))) = []) :=
  ⟨by simp, C7_init_filters [sampleSpec] 0 (by simp)⟩

/-- C8: with no fetch function, mounting performs no fetch and arms no
timer for every interval value and any simulated elapsed time; an absent
mandatory-filter prop and an absent optional-filter prop likewise degrade
to no-ops. -/
theorem C8_missing_inputs_are_noops {ρ : Type} (delay : JsValue)
    (other : Option Nat) (ms : Nat) (rows : List ρ) :
    (mountList false delay other).fetchCount = 0 ∧
    (mountList false delay other).armedInterval = none ∧
    (elapse (mountList false delay other) ms).fetchCount = 0 ∧
    applyFilters none ([] : List (OptionalFilter ρ)) rows = rows ∧
    initFilters (none : Option (List (OptionalFilterSpec ρ))) = [] := by
  have hmount : mountList false delay other =
      { fetchCount := 0, armedInterval := none, otherCalls := (other.getD 0) } := by
    unfold mountList componentDidMount
    cases other <;> rfl
  rw [hmount]
  exact ⟨rfl, rfl, rfl, applyFilters_no_filters rows, rfl⟩

/-- C9: applying the filters never mutates the input row collection — the
instrumented semantics returns the input unchanged alongside the same
result `applyFilters` computes. -/
theorem C9_apply_does_not_mutate_rows {ρ : Type}
    (propsFilters : Option (List (ρ → Bool)))
    (stateFilters : List (OptionalFilter ρ)) (rows : List ρ) :
    (applyFiltersTrace propsFilters stateFilters rows).1 = rows ∧
    (applyFiltersTrace propsFilters stateFilters rows).2 =
      applyFilters propsFilters stateFilters rows := by
  unfold applyFiltersTrace applyFilters
  exact ⟨applyFiltersHelperTrace_fst _ _, applyFiltersHelperTrace_snd _ _⟩

/-- C10: the constructor mutates the caller-supplied spec objects in place
— after construction every referenced object itself carries
`enabled = some false` and the normalised key (its label and predicate
untouched), objects not referenced are untouched, and `state.filters` holds
the very same references as the caller's prop (aliasing, not fresh
records). -/
theorem C10_constructor_mutates_caller_objects {ρ : Type}
    (heap : Nat → SpecObj ρ) (refs : List Nat) (r : Nat) (hr : r ∈ refs) :
    (constructorHeap heap refs).2 = refs ∧
    (constructorHeap heap refs).1 r = mutateSpec (heap r) ∧
    ((constructorHeap heap refs).1 r).enabled = some false ∧
    ((constructorHeap heap refs).1 r).key = some (normalizeKey (heap r).label) ∧
    ((constructorHeap heap refs).1 r).label = (heap r).label ∧
    ((constructorHeap heap refs).1 r).filter = (heap r).filter ∧
    (∀ q : Nat, q ∉ refs → (constructorHeap heap refs).1 q = heap q) := by
  have hm := constructorHeap_fst_apply heap refs r
  rw [if_pos hr] at hm
  refine ⟨rfl, hm, by rw [hm]; rfl, by rw [hm]; rfl, by rw [hm]; rfl,
    by rw [hm]; rfl, ?_⟩
  intro q hq
  have hq' := constructorHeap_fst_apply heap refs q
  rwa [if_neg hq] at hq'

/-- C10 witness: a heap of `"Blood Pressure"` spec objects, with
`state.filters = [0]` referencing object 0. -/
theorem C10_constructor_mutates_caller_objects_witness :
    (0 : Nat) ∈ ([0] : List Nat) ∧
    ((constructorHeap sampleHeap [0]).2 = [0] ∧
      (constructorHeap sampleHeap [0]).1 0 = mutateSpec (sampleHeap 0) ∧
      ((constructorHeap sampleHeap [0]).1 0).enabled = some false ∧
      ((constructorHeap sampleHeap [0]).1 0).key =
        some (normalizeKey (sampleHeap 0).label) ∧
      ((constructorHeap sampleHeap [0]).1 0).label = (sampleHeap 0).label ∧
      ((constructorHeap sampleHeap [0]).1 0).filter = (sampleHeap 0).filter ∧
      (∀ q : Nat, q ∉ ([0] : List Nat) →
        (constructorHeap sampleHeap [0]).1 q = sampleHeap q)) :=
  ⟨by decide, C10_constructor_mutates_caller_objects sampleHeap [0] 0 (by decide)⟩

end OpenmrsList
